import Mathlib

/-!
Verification of the two deployment-support scripts of the repository
`OpenHands-Backend`:

* `src/app_hf.py` — the environment provisioner `setup_hf_environment`:
  a sequence of `os.environ.setdefault` calls, a JWT-secret generation step
  guarded by Python truthiness of `os.getenv("JWT_SECRET")`, creation of
  three fixed directories, and a constant pair of returned paths.

* `src/test_hf_deploy.py` — the three-stage deployment pipeline:
  `test_file_preparation` (required-file precondition check),
  `simulate_workflow` (staging copy into a scratch directory), and
  `check_hf_token` (advisory credential check), sequenced by `main`.

The embedding models the process environment as a partial map from variable
names to string values, and the working directory as a record of the
`openhands/` tree plus the top-level files.  Secret generation
(`secrets.token_urlsafe(32)`) is modelled by an explicit parameter carrying
the freshly generated token; the library guarantees the token is non-empty,
which appears as a hypothesis where it matters.
-/

namespace HFDeploy

/-- A process environment: a partial map from variable names to values.
`none` means the variable is unset. -/
abbrev Env : Type := String → Option String

/-- Embedding of `os.environ.setdefault(k, v)`: if `k` is already present the
old value wins, otherwise `v` is stored.  `Option.or` is exactly the
"existing value wins" choice. -/
def setdefault (e : Env) (k v : String) : Env :=
  fun q => if q = k then (e k).or (some v) else e q

/-- Embedding of the Python truthiness test `not os.getenv(k)`: true when the
variable is unset (`os.getenv` returns `None`) or set to the empty string
(both are falsy in Python). -/
def getenvFalsy (e : Env) (k : String) : Bool :=
  match e k with
  | none => true
  | some s => s = ""

/-- Embedding of the direct assignment `os.environ[k] = v`. -/
def setEnv (e : Env) (k v : String) : Env :=
  fun q => if q = k then some v else e q

/-- The `os.environ.setdefault` calls of `setup_hf_environment` made before
the JWT-secret check, in source order (`app_hf.py` lines 14-30). -/
def defaultsBefore : List (String × String) :=
  [("OPENHANDS_RUNTIME", "local"),
   ("CORS_ALLOWED_ORIGINS", "*"),
   ("SERVE_FRONTEND", "false"),
   ("FILE_STORE_PATH", "/tmp/openhands"),
   ("CACHE_DIR", "/tmp/cache")]

/-- The `os.environ.setdefault` calls of `setup_hf_environment` made after
the JWT-secret check, in source order (`app_hf.py` lines 39-66; note the
source repeats `ENABLE_AUTO_LINT`). -/
def defaultsAfter : List (String × String) :=
  [("DISABLE_SECURITY", "true"),
   ("SANDBOX_RUNTIME_CONTAINER_IMAGE", ""),
   ("SANDBOX_USER_ID", "1000"),
   ("WORKSPACE_BASE", "/tmp/workspace"),
   ("OPENHANDS_DISABLE_AUTH", "true"),
   ("ENABLE_AUTO_LINT", "false"),
   ("ENABLE_SECURITY_ANALYSIS", "false"),
   ("SETTINGS_STORE_TYPE", "memory"),
   ("SECRETS_STORE_TYPE", "memory"),
   ("DEFAULT_LLM_MODEL", "openrouter/anthropic/claude-3-haiku-20240307"),
   ("DEFAULT_LLM_BASE_URL", "https://openrouter.ai/api/v1"),
   ("SKIP_SETTINGS_MODAL", "true"),
   ("DEFAULT_AGENT", "CodeActAgent"),
   ("DEFAULT_LANGUAGE", "en"),
   ("CONFIRMATION_MODE", "false"),
   ("ENABLE_AUTO_LINT", "false"),
   ("MAX_ITERATIONS", "30"),
   ("MAX_BUDGET_PER_TASK", "10.0")]

/-- Folding a list of `(key, default)` pairs through `setdefault`, in list
order: the embedding of a block of consecutive `os.environ.setdefault`
lines. -/
def setdefaults (e : Env) (l : List (String × String)) : Env :=
  l.foldl (fun a p => setdefault a p.1 p.2) e

/-- Result of running `setup_hf_environment`: the final environment, the
directories passed to `os.makedirs(..., exist_ok=True)`, and the returned
pair `(file_store_path, cache_dir)`. -/
@[ext]
structure SetupResult where
  env : Env
  created : List String
  ret : String × String

/-- Embedding of `setup_hf_environment` (`app_hf.py` lines 10-72).
`freshSecret` stands for the value `secrets.token_urlsafe(32)` would
produce if the generation branch is taken.  The directory-creation calls are
recorded in `created` in source order; the hard-coded locals
`file_store_path` and `cache_dir` are the returned pair. -/
def setup_hf_environment (e : Env) (freshSecret : String) : SetupResult :=
  let e1 := setdefaults e defaultsBefore
  let e2 := if getenvFalsy e1 "JWT_SECRET" then setEnv e1 "JWT_SECRET" freshSecret else e1
  let e3 := setdefaults e2 defaultsAfter
  { env := e3
    created := ["/tmp/openhands", "/tmp/cache", "/tmp/workspace"]
    ret := ("/tmp/openhands", "/tmp/cache") }

/-! Basic lemmas about the environment operations. -/

theorem setdefault_apply_self (e : Env) (k v : String) :
    setdefault e k v k = (e k).or (some v) := by
  simp [setdefault]

theorem setdefault_apply_ne (e : Env) (k v q : String) (h : q ≠ k) :
    setdefault e k v q = e q := by
  simp [setdefault, h]

theorem setdefaults_nil (e : Env) : setdefaults e [] = e := rfl

theorem setdefaults_cons (e : Env) (p : String × String) (t : List (String × String)) :
    setdefaults e (p :: t) = setdefaults (setdefault e p.1 p.2) t := rfl

/-- Pointwise description of a `setdefault` block: the original value wins if
present, otherwise the first default listed for the key applies. -/
theorem setdefaults_apply (l : List (String × String)) (e : Env) (k : String) :
    setdefaults e l k = (e k).or (Option.map Prod.snd (l.find? (fun q => q.1 == k))) := by
  induction l generalizing e with
  | nil => simp [setdefaults]
  | cons p t ih =>
    rw [setdefaults_cons, ih]
    by_cases hk : p.1 = k
    · subst hk
      rw [List.find?_cons_of_pos _ (by simp), setdefault_apply_self, Option.or_assoc]
      simp
    · rw [List.find?_cons_of_neg _ (by simp [hk]), setdefault_apply_ne e p.1 p.2 k (fun h => hk h.symm)]

/-- Pointwise description of the whole provisioner: the JWT secret follows the
Python-truthiness rule, and every other variable follows "set-if-absent"
against the concatenated default tables. -/
theorem setup_env_apply (e : Env) (f k : String) :
    (setup_hf_environment e f).env k =
      if k = "JWT_SECRET" then
        (if getenvFalsy e "JWT_SECRET" then some f else e "JWT_SECRET")
      else
        (e k).or (Option.map Prod.snd
          ((defaultsBefore ++ defaultsAfter).find? (fun q => q.1 == k))) := by
  have hjwtB : defaultsBefore.find? (fun q => q.1 == "JWT_SECRET") = none := rfl
  have hjwtA : defaultsAfter.find? (fun q => q.1 == "JWT_SECRET") = none := rfl
  have he1jwt : setdefaults e defaultsBefore "JWT_SECRET" = e "JWT_SECRET" := by
    rw [setdefaults_apply, hjwtB]
    simp
  have hfalsy : getenvFalsy (setdefaults e defaultsBefore) "JWT_SECRET"
      = getenvFalsy e "JWT_SECRET" := by
    unfold getenvFalsy
    rw [he1jwt]
  show setdefaults _ defaultsAfter k = _
  by_cases hk : k = "JWT_SECRET"
  · subst hk
    rw [if_pos rfl, setdefaults_apply, hjwtA]
    simp only [Option.map_none', Option.or_none]
    rw [hfalsy]
    cases hfal : getenvFalsy e "JWT_SECRET"
    · simp [he1jwt]
    · simp [setEnv]
  · rw [if_neg hk, setdefaults_apply]
    have he2 : (if getenvFalsy (setdefaults e defaultsBefore) "JWT_SECRET" then
        setEnv (setdefaults e defaultsBefore) "JWT_SECRET" f
      else setdefaults e defaultsBefore) k = setdefaults e defaultsBefore k := by
      split
      · simp [setEnv, hk]
      · rfl
    rw [he2, setdefaults_apply, Option.or_assoc, List.find?_append, Option.map_or']

/-- The key `JWT_SECRET` never occurs in either `setdefault` table. -/
theorem jwt_not_in_defaults :
    "JWT_SECRET" ∉ (defaultsBefore ++ defaultsAfter).map Prod.fst := by decide

/-- Looking up any table entry's key in the concatenated tables yields that
entry's default (the two occurrences of `ENABLE_AUTO_LINT` carry the same
default, so the first match is always the right one). -/
theorem find_default : ∀ p ∈ defaultsBefore ++ defaultsAfter,
    Option.map Prod.snd
      ((defaultsBefore ++ defaultsAfter).find? (fun q => q.1 == p.1)) = some p.2 := by
  decide

/-- An operator environment that pre-sets the session secret to the empty
string and nothing else. -/
def envPresetEmptyJwt : Env := fun q => if q = "JWT_SECRET" then some "" else none

/-- An operator environment that pre-sets the session secret to a non-empty
value and nothing else. -/
def envPresetJwt : Env := fun q => if q = "JWT_SECRET" then some "preset" else none

/-- C1 (amended): for every option in the defaulting table other than the
session secret, an unset variable resolves to the documented default and a
pre-set variable (any value, empty included) is left unchanged; the session
secret `JWT_SECRET` resolves to the freshly generated token when unset or
pre-set to the empty string, and is left unchanged only when pre-set to a
non-empty value. -/
theorem setup_defaulting (e : Env) (f k d v s : String) :
    ((k, d) ∈ defaultsBefore ++ defaultsAfter →
      ((e k = none → (setup_hf_environment e f).env k = some d) ∧
       (e k = some v → (setup_hf_environment e f).env k = some v))) ∧
    ((e "JWT_SECRET" = none ∨ e "JWT_SECRET" = some "") →
      (setup_hf_environment e f).env "JWT_SECRET" = some f) ∧
    (s ≠ "" → e "JWT_SECRET" = some s →
      (setup_hf_environment e f).env "JWT_SECRET" = some s) := by
  refine ⟨fun hmem => ?_, fun hjwt => ?_, fun hs hset => ?_⟩
  · have hk : k ≠ "JWT_SECRET" := by
      intro hkeq
      exact jwt_not_in_defaults (hkeq ▸ List.mem_map_of_mem Prod.fst hmem)
    constructor
    · intro h
      rw [setup_env_apply, if_neg hk, h, Option.none_or]
      exact find_default (k, d) hmem
    · intro h
      rw [setup_env_apply, if_neg hk, h, Option.or_some]
  · rw [setup_env_apply, if_pos rfl]
    have hg : getenvFalsy e "JWT_SECRET" = true := by
      rcases hjwt with h | h <;> simp [getenvFalsy, h]
    simp [hg]
  · rw [setup_env_apply, if_pos rfl]
    have hg : getenvFalsy e "JWT_SECRET" = false := by
      simp [getenvFalsy, hset, hs]
    simp [hg, hset]

/-- C1 counterexample: the operator pre-sets `JWT_SECRET` to the empty
string, yet the provisioner overwrites it with the generated token — so a
pre-set option is not always left unchanged. -/
theorem setup_defaulting_counterexample :
    envPresetEmptyJwt "JWT_SECRET" = some "" ∧
    (setup_hf_environment envPresetEmptyJwt "GENERATED_TOKEN").env "JWT_SECRET"
      = some "GENERATED_TOKEN" ∧
    (some "GENERATED_TOKEN" : Option String) ≠ some "" := by
  refine ⟨rfl, ?_, by decide⟩
  rw [setup_env_apply]
  rfl

/-- Witness for C1's amended theorem at concrete environments: an unset
option gets its default, an unset secret gets the generated token, and a
non-empty pre-set secret is preserved. -/
theorem setup_defaulting_witness :
    (setup_hf_environment (fun _ => none) "tok").env "OPENHANDS_RUNTIME" = some "local" ∧
    (setup_hf_environment (fun _ => none) "tok").env "JWT_SECRET" = some "tok" ∧
    (setup_hf_environment envPresetJwt "tok").env "JWT_SECRET" = some "preset" :=
  ⟨((setup_defaulting (fun _ => none) "tok" "OPENHANDS_RUNTIME" "local" "x" "s").1
      (by decide)).1 rfl,
   (setup_defaulting (fun _ => none) "tok" "k" "d" "v" "s").2.1 (Or.inl rfl),
   (setup_defaulting envPresetJwt "tok" "k" "d" "v" "preset").2.2 (by decide) rfl⟩

/-- C2: running the provisioner a second time on the environment produced by
a first run changes nothing — the same resolved configuration, directory
list and returned paths come back, and no new secret is installed (the token
generated on the first run is non-empty, hence no longer falsy). -/
theorem setup_idempotent (e : Env) (f1 f2 : String) (h1 : f1 ≠ "") :
    setup_hf_environment (setup_hf_environment e f1).env f2
      = setup_hf_environment e f1 := by
  have henv : (setup_hf_environment (setup_hf_environment e f1).env f2).env
      = (setup_hf_environment e f1).env := by
    funext k
    rw [setup_env_apply (setup_hf_environment e f1).env f2 k, setup_env_apply e f1 k]
    by_cases hk : k = "JWT_SECRET"
    · subst hk
      rw [if_pos rfl, if_pos rfl]
      have hval : (setup_hf_environment e f1).env "JWT_SECRET"
          = if getenvFalsy e "JWT_SECRET" then some f1 else e "JWT_SECRET" := by
        rw [setup_env_apply, if_pos rfl]
      have hnotfalsy : getenvFalsy (setup_hf_environment e f1).env "JWT_SECRET" = false := by
        unfold getenvFalsy
        rw [hval]
        cases hfal : getenvFalsy e "JWT_SECRET"
        · simp only [Bool.false_eq_true, if_false]
          unfold getenvFalsy at hfal
          cases he : e "JWT_SECRET" with
          | none => rw [he] at hfal; exact absurd hfal (by simp)
          | some s => rw [he] at hfal; simp at hfal ⊢; exact hfal
        · simp [h1]
      rw [hnotfalsy, hval]
      simp
    · rw [if_neg hk, if_neg hk]
      rw [Option.or_assoc, Option.or_self]
  exact SetupResult.ext henv rfl rfl

/-- Witness for C2 at the empty environment with two distinct candidate
tokens. -/
theorem setup_idempotent_witness :
    ("s1" : String) ≠ "" ∧
    setup_hf_environment (setup_hf_environment (fun _ => none) "s1").env "s2"
      = setup_hf_environment (fun _ => none) "s1" :=
  ⟨by decide, setup_idempotent (fun _ => none) "s1" "s2" (by decide)⟩

/-- C9: whatever the starting environment — including one where the operator
pre-set `FILE_STORE_PATH`, `CACHE_DIR` or `WORKSPACE_BASE` to other paths —
the provisioner returns the hard-coded pair and creates the three hard-coded
directories, not the resolved configuration values. -/
theorem setup_paths_hardcoded (e : Env) (f : String) :
    (setup_hf_environment e f).ret = ("/tmp/openhands", "/tmp/cache") ∧
    (setup_hf_environment e f).created
      = ["/tmp/openhands", "/tmp/cache", "/tmp/workspace"] :=
  ⟨rfl, rfl⟩

/-! Embedding of `test_hf_deploy.py`: the invocation directory, the three
pipeline stages, and the `main` sequencing. -/

/-- The invocation directory as `test_hf_deploy.py` sees it: the optional
`openhands/` directory with its files (relative paths inside the tree), and
the top-level files with their contents. -/
structure Workspace where
  openhandsTree : Option (List (String × String))
  files : List (String × String)
deriving DecidableEq

/-- Embedding of `os.path.exists` over a `Workspace`: the entry
`"openhands/"` names the directory, every other required name is a
top-level file. -/
def Workspace.existsPath (w : Workspace) (p : String) : Bool :=
  if p = "openhands/" then w.openhandsTree.isSome else (w.files.lookup p).isSome

/-- The `required_files` list of `test_file_preparation`
(`test_hf_deploy.py` lines 14-20), in source order. -/
def required_files : List String :=
  ["openhands/", "app_hf.py", "requirements.txt", "Dockerfile_HF", "README_HF.md"]

/-- The `missing_files` list accumulated by the loop of
`test_file_preparation`: the required paths that do not exist, in required
order. -/
def missing_files (ex : String → Bool) : List String :=
  required_files.filter (fun p => !(ex p))

/-- Embedding of `test_file_preparation` (`test_hf_deploy.py` lines 10-34):
returns `False` when any required path is missing, `True` otherwise. -/
def test_file_preparation (ex : String → Bool) : Bool :=
  (missing_files ex).isEmpty

/-- C3: for any subset `S` of the required-path list, when exactly the paths
in `S` are missing the precondition check succeeds with an empty
missing-list for empty `S`, and fails with a missing-list containing exactly
the members of `S` — every missing entry, not only the first — for non-empty
`S`. -/
theorem test_file_preparation_spec (ex : String → Bool) (S : List String)
    (hS : ∀ p, p ∈ S ↔ (p ∈ required_files ∧ ex p = false)) :
    (S = [] → (test_file_preparation ex = true ∧ missing_files ex = [])) ∧
    (S ≠ [] → (test_file_preparation ex = false ∧
      (∀ p, p ∈ missing_files ex ↔ p ∈ S))) := by
  have hmiss : ∀ p, p ∈ missing_files ex ↔ (p ∈ required_files ∧ ex p = false) := by
    intro p
    simp [missing_files, List.mem_filter]
  constructor
  · intro hnil
    subst hnil
    have hempty : missing_files ex = [] := by
      rw [List.eq_nil_iff_forall_not_mem]
      intro p hp
      exact (List.not_mem_nil p) ((hS p).2 ((hmiss p).1 hp))
    exact ⟨by simp [test_file_preparation, hempty], hempty⟩
  · intro hne
    have hmem : ∀ p, p ∈ missing_files ex ↔ p ∈ S := by
      intro p
      rw [hmiss p, hS p]
    obtain ⟨p0, hp0⟩ := List.exists_mem_of_ne_nil S hne
    have hp0m : p0 ∈ missing_files ex := (hmem p0).2 hp0
    refine ⟨?_, hmem⟩
    have : missing_files ex ≠ [] := by
      intro hnil
      rw [hnil] at hp0m
      exact (List.not_mem_nil p0) hp0m
    simp [test_file_preparation, List.isEmpty_iff, this]

/-- Witness for C3: with every path present and `S` empty, the check
succeeds with an empty missing-list. -/
theorem test_file_preparation_spec_witness :
    test_file_preparation (fun _ => true) = true ∧
    missing_files (fun _ => true) = [] :=
  (test_file_preparation_spec (fun _ => true) [] (by simp)).1 rfl

/-- The scratch directory `./test_hf_space` produced by `simulate_workflow`:
the copied `openhands/` subtree and the top-level staged files. -/
structure Scratch where
  openhands : List (String × String)
  files : List (String × String)
deriving DecidableEq

/-- The metadata front-matter block prepended to the README template
(`test_hf_deploy.py` lines 63-74), byte for byte. -/
def readmeHeader : String :=
  "---\ntitle: OpenHands Backend API\nemoji: 🤖\ncolorFrom: blue\ncolorTo: purple\nsdk: docker\npinned: false\nlicense: mit\napp_port: 7860\n---\n\n"

/-- Embedding of `shutil.copy2(src, ...)` reading a top-level file: yields
the file's content, or raises (models `FileNotFoundError`) when the source
is absent. -/
def copy2 (w : Workspace) (src : String) : Except String String :=
  match w.files.lookup src with
  | some c => Except.ok c
  | none => Except.error ("No such file or directory: " ++ src)

/-- Embedding of the `try` block of `simulate_workflow` (`test_hf_deploy.py`
lines 46-93), with the copies in source order: `copytree` of `openhands/`,
`app_hf.py` under both destination names, `requirements.txt`,
`Dockerfile_HF` renamed to `Dockerfile`, the README synthesis, and the
optional `.env.hf` copy.  `Except.error` is a raised exception,
`Except.ok` the fully staged scratch directory. -/
def simulate_workflow (w : Workspace) : Except String Scratch :=
  match w.openhandsTree with
  | none => Except.error "No such file or directory: ./openhands"
  | some tree =>
    match w.files.lookup "app_hf.py" with
    | none => Except.error "No such file or directory: ./app_hf.py"
    | some appContent =>
      match w.files.lookup "requirements.txt" with
      | none => Except.error "No such file or directory: ./requirements.txt"
      | some reqContent =>
        match w.files.lookup "Dockerfile_HF" with
        | none => Except.error "No such file or directory: ./Dockerfile_HF"
        | some dockerContent =>
          match w.files.lookup "README_HF.md" with
          | none => Except.error "No such file or directory: README_HF.md"
          | some readmeSrc =>
            match w.files.lookup ".env.hf" with
            | some envContent =>
                Except.ok ⟨tree,
                  [("app_hf.py", appContent), ("app.py", appContent),
                   ("requirements.txt", reqContent), ("Dockerfile", dockerContent),
                   ("README.md", readmeHeader ++ readmeSrc), (".env", envContent)]⟩
            | none =>
                Except.ok ⟨tree,
                  [("app_hf.py", appContent), ("app.py", appContent),
                   ("requirements.txt", reqContent), ("Dockerfile", dockerContent),
                   ("README.md", readmeHeader ++ readmeSrc)]⟩

/-- Outcome of one call of the whole `simulate_workflow` function body:
either an exception escapes the function (`raised`), or the function
returns a boolean, together with the error message it printed when
returning `False`. -/
inductive RunResult where
  | raised (msg : String)
  | returned (ok : Bool) (report : Option String)
deriving DecidableEq

/-- Embedding of the full `simulate_workflow` body (`test_hf_deploy.py`
lines 36-97): the destructive scratch reset (`shutil.rmtree` of a
pre-existing `./test_hf_space` plus `mkdir`, lines 41-44) runs before the
`try` statement, so a fault there — modelled by `resetFault` carrying the
exception message — escapes the function uncaught; only exceptions raised
inside the `try` block are converted to a printed message and a `False`
return. -/
def simulate_workflow_run (resetFault : Option String) (w : Workspace) : RunResult :=
  match resetFault with
  | some msg => RunResult.raised msg
  | none =>
    match simulate_workflow w with
    | Except.ok _ => RunResult.returned true none
    | Except.error e => RunResult.returned false (some e)

/-- Embedding of `check_hf_token` (`test_hf_deploy.py` lines 99-110):
`False` exactly when `HF_TOKEN` is unset or empty (Python falsiness of
`os.getenv`). -/
def check_hf_token (env : Env) : Bool :=
  match env "HF_TOKEN" with
  | none => false
  | some t => if t = "" then false else true

/-- Observable outcome of `main`: whether each stage ran and its result
(`none` when the stage never ran), and whether the final "All tests passed"
success report was reached. -/
structure PipelineResult where
  stage1 : Bool
  stage2 : Option Bool
  stage3 : Option Bool
  success : Bool
deriving DecidableEq

/-- Embedding of `main` (`test_hf_deploy.py` lines 112-132): Stage 1 and
Stage 2 short-circuit the pipeline on failure; Stage 3 runs afterwards and
its result is not consulted before the success report. -/
def main (w : Workspace) (env : Env) : PipelineResult :=
  if test_file_preparation w.existsPath = false then
    ⟨false, none, none, false⟩
  else
    match simulate_workflow w with
    | Except.error _ => ⟨true, some false, none, false⟩
    | Except.ok _ => ⟨true, some true, some (check_hf_token env), true⟩

/-- A complete invocation directory used as concrete input: one file in the
`openhands/` tree, the four required top-level files, no `.env.hf`. -/
def demoWorkspace : Workspace :=
  ⟨some [("core.py", "code")],
   [("app_hf.py", "boot"), ("requirements.txt", "reqs"),
    ("Dockerfile_HF", "docker"), ("README_HF.md", "template")]⟩

/-- The scratch directory `simulate_workflow` produces from
`demoWorkspace`. -/
def demoScratch : Scratch :=
  ⟨[("core.py", "code")],
   [("app_hf.py", "boot"), ("app.py", "boot"), ("requirements.txt", "reqs"),
    ("Dockerfile", "docker"), ("README.md", readmeHeader ++ "template")]⟩

/-- Inversion of a successful staging run: the sources that must have been
present and the exact file list of the scratch directory, with and without
the optional environment template. -/
theorem simulate_workflow_ok_inv (w : Workspace) (s : Scratch)
    (h : simulate_workflow w = Except.ok s) :
    ∃ appContent reqContent dockerContent readmeSrc,
      w.openhandsTree = some s.openhands ∧
      w.files.lookup "app_hf.py" = some appContent ∧
      w.files.lookup "requirements.txt" = some reqContent ∧
      w.files.lookup "Dockerfile_HF" = some dockerContent ∧
      w.files.lookup "README_HF.md" = some readmeSrc ∧
      ((w.files.lookup ".env.hf" = none ∧
        s.files = [("app_hf.py", appContent), ("app.py", appContent),
                   ("requirements.txt", reqContent), ("Dockerfile", dockerContent),
                   ("README.md", readmeHeader ++ readmeSrc)]) ∨
       (∃ envContent, w.files.lookup ".env.hf" = some envContent ∧
        s.files = [("app_hf.py", appContent), ("app.py", appContent),
                   ("requirements.txt", reqContent), ("Dockerfile", dockerContent),
                   ("README.md", readmeHeader ++ readmeSrc), (".env", envContent)])) := by
  unfold simulate_workflow at h
  split at h
  next => exact absurd h (by simp)
  next tree htree =>
    split at h
    next => exact absurd h (by simp)
    next appContent happ =>
      split at h
      next => exact absurd h (by simp)
      next reqContent hreq =>
        split at h
        next => exact absurd h (by simp)
        next dockerContent hdock =>
          split at h
          next => exact absurd h (by simp)
          next readmeSrc hread =>
            split at h
            next envContent henv =>
              injection h with h
              subst h
              exact ⟨appContent, reqContent, dockerContent, readmeSrc,
                by rw [htree], happ, hreq, hdock, hread,
                Or.inr ⟨envContent, henv, rfl⟩⟩
            next henv =>
              injection h with h
              subst h
              exact ⟨appContent, reqContent, dockerContent, readmeSrc,
                by rw [htree], happ, hreq, hdock, hread,
                Or.inl ⟨henv, rfl⟩⟩

/-- C4 (amended): a successful staging run produces a scratch directory
holding the copied application tree plus exactly five top-level files — the
bootstrap script under both of its destination names, the dependency
manifest, the renamed build file and the synthesized documentation file —
with a sixth top-level file `.env` exactly when the environment template
was present. -/
theorem simulate_workflow_output_files (w : Workspace) (s : Scratch)
    (h : simulate_workflow w = Except.ok s) :
    w.openhandsTree = some s.openhands ∧
    (w.files.lookup ".env.hf" = none →
      s.files.map Prod.fst
        = ["app_hf.py", "app.py", "requirements.txt", "Dockerfile", "README.md"]) ∧
    (∀ c, w.files.lookup ".env.hf" = some c →
      s.files.map Prod.fst
        = ["app_hf.py", "app.py", "requirements.txt", "Dockerfile", "README.md",
           ".env"]) := by
  obtain ⟨a, r, d, m, htree, -, -, -, -, hcase⟩ := simulate_workflow_ok_inv w s h
  refine ⟨htree, ?_, ?_⟩
  · intro hnone
    rcases hcase with ⟨-, hfiles⟩ | ⟨c, hc, -⟩
    · rw [hfiles]
      rfl
    · rw [hc] at hnone
      exact absurd hnone (by simp)
  · intro c hsome
    rcases hcase with ⟨hnone, -⟩ | ⟨c2, -, hfiles⟩
    · rw [hnone] at hsome
      exact absurd hsome (by simp)
    · rw [hfiles]
      rfl

/-- C4 counterexample: on a complete invocation directory without the
environment template, the staging output holds one tree file and five
top-level files — six files in total, not the four the claim states. -/
theorem simulate_workflow_file_count_counterexample :
    Except.map (fun s => (s.openhands.length, s.files.length))
        (simulate_workflow demoWorkspace) = Except.ok (1, 5) ∧
    ¬((1 : Nat) + 5 = 4) ∧ ¬((5 : Nat) = 4) :=
  ⟨rfl, by decide, by decide⟩

/-- Witness for C4's amended theorem on the concrete complete directory. -/
theorem simulate_workflow_output_files_witness :
    demoWorkspace.openhandsTree = some demoScratch.openhands ∧
    demoScratch.files.map Prod.fst
      = ["app_hf.py", "app.py", "requirements.txt", "Dockerfile", "README.md"] := by
  obtain ⟨h1, h2, -⟩ := simulate_workflow_output_files demoWorkspace demoScratch rfl
  exact ⟨h1, h2 rfl⟩

/-- C5: after every successful staging run the bootstrap script is present
under both destination names `app_hf.py` and `app.py`, with byte-identical
content. -/
theorem entry_point_duplicated (w : Workspace) (s : Scratch)
    (h : simulate_workflow w = Except.ok s) :
    s.files.lookup "app_hf.py" = s.files.lookup "app.py" ∧
    (s.files.lookup "app_hf.py").isSome = true := by
  obtain ⟨a, r, d, m, -, -, -, -, -, hcase⟩ := simulate_workflow_ok_inv w s h
  rcases hcase with ⟨-, hfiles⟩ | ⟨c, -, hfiles⟩ <;> rw [hfiles] <;> exact ⟨rfl, rfl⟩

/-- Witness for C5 on the concrete complete directory. -/
theorem entry_point_duplicated_witness :
    demoScratch.files.lookup "app_hf.py" = demoScratch.files.lookup "app.py" ∧
    (demoScratch.files.lookup "app_hf.py").isSome = true :=
  entry_point_duplicated demoWorkspace demoScratch rfl

/-- C6: for every content of the documentation template, the synthesized
`README.md` equals the fixed front-matter block verbatim followed
immediately by the template's content. -/
theorem readme_front_matter (w : Workspace) (s : Scratch) (t : String)
    (h : simulate_workflow w = Except.ok s)
    (ht : w.files.lookup "README_HF.md" = some t) :
    s.files.lookup "README.md"
      = some ("---\ntitle: OpenHands Backend API\nemoji: 🤖\ncolorFrom: blue\ncolorTo: purple\nsdk: docker\npinned: false\nlicense: mit\napp_port: 7860\n---\n\n" ++ t) := by
  obtain ⟨a, r, d, m, -, -, -, -, hread, hcase⟩ := simulate_workflow_ok_inv w s h
  have hm : m = t := by
    rw [hread] at ht
    exact Option.some.inj ht
  subst hm
  rcases hcase with ⟨-, hfiles⟩ | ⟨c, -, hfiles⟩ <;> rw [hfiles] <;> rfl

/-- Witness for C6 on the concrete complete directory with template content
"template". -/
theorem readme_front_matter_witness :
    demoScratch.files.lookup "README.md"
      = some ("---\ntitle: OpenHands Backend API\nemoji: 🤖\ncolorFrom: blue\ncolorTo: purple\nsdk: docker\npinned: false\nlicense: mit\napp_port: 7860\n---\n\n" ++ "template") :=
  readme_front_matter demoWorkspace demoScratch "template" rfl rfl

/-- C7: the environment template is optional — staging succeeds whenever the
required sources exist, no `.env` appears in the scratch output when
`.env.hf` is absent, and when present its content is copied byte-identical
under the name `.env`. -/
theorem env_template_optional (w : Workspace) :
    (∀ s, simulate_workflow w = Except.ok s →
      ((w.files.lookup ".env.hf" = none → s.files.lookup ".env" = none) ∧
       (∀ c, w.files.lookup ".env.hf" = some c → s.files.lookup ".env" = some c))) ∧
    (w.openhandsTree.isSome = true →
      (w.files.lookup "app_hf.py").isSome = true →
      (w.files.lookup "requirements.txt").isSome = true →
      (w.files.lookup "Dockerfile_HF").isSome = true →
      (w.files.lookup "README_HF.md").isSome = true →
      ∃ s, simulate_workflow w = Except.ok s) := by
  constructor
  · intro s h
    obtain ⟨a, r, d, m, -, -, -, -, -, hcase⟩ := simulate_workflow_ok_inv w s h
    constructor
    · intro hnone
      rcases hcase with ⟨-, hfiles⟩ | ⟨c, hc, -⟩
      · rw [hfiles]
        rfl
      · rw [hc] at hnone
        exact absurd hnone (by simp)
    · intro c hsome
      rcases hcase with ⟨hnone, -⟩ | ⟨c2, hc2, hfiles⟩
      · rw [hnone] at hsome
        exact absurd hsome (by simp)
      · have : c2 = c := by
          rw [hc2] at hsome
          exact Option.some.inj hsome
        subst this
        rw [hfiles]
        rfl
  · intro h1 h2 h3 h4 h5
    obtain ⟨tree, htree⟩ := Option.isSome_iff_exists.1 h1
    obtain ⟨a, ha⟩ := Option.isSome_iff_exists.1 h2
    obtain ⟨r, hr⟩ := Option.isSome_iff_exists.1 h3
    obtain ⟨d, hd⟩ := Option.isSome_iff_exists.1 h4
    obtain ⟨m, hm⟩ := Option.isSome_iff_exists.1 h5
    unfold simulate_workflow
    rw [htree, ha, hr, hd, hm]
    cases henv : w.files.lookup ".env.hf"
    · exact ⟨_, rfl⟩
    · exact ⟨_, rfl⟩

/-- Witness for C7: on the concrete complete directory (no `.env.hf`),
staging succeeds and no `.env` is staged. -/
theorem env_template_optional_witness :
    demoScratch.files.lookup ".env" = none ∧
    (∃ s, simulate_workflow demoWorkspace = Except.ok s) :=
  ⟨((env_template_optional demoWorkspace).1 demoScratch rfl).1 rfl,
   (env_template_optional demoWorkspace).2 rfl rfl rfl rfl rfl⟩

/-- C8: the pipeline short-circuits only on Stage 1 or Stage 2 failure; when
both succeed, Stage 3 runs and the pipeline reports overall success whatever
`check_hf_token` says — the credential's value never changes the pipeline
outcome. -/
theorem pipeline_stage3_advisory (w : Workspace) (env env2 : Env) :
    ((main w env).stage1 = true → (main w env).stage2 = some true →
      ((main w env).stage3 = some (check_hf_token env) ∧
       (main w env).success = true)) ∧
    ((main w env).success = (main w env2).success) ∧
    ((main w env).stage1 = false →
      ((main w env).stage2 = none ∧ (main w env).stage3 = none ∧
       (main w env).success = false)) := by
  by_cases h1 : test_file_preparation w.existsPath = false
  · simp [main, h1]
  · cases hsim : simulate_workflow w <;> simp [main, h1, hsim]

/-- Witness for C8: on the concrete complete directory with `HF_TOKEN`
unset, Stage 3 runs (reporting the missing credential) and the pipeline
still reports success. -/
theorem pipeline_stage3_advisory_witness :
    (main demoWorkspace (fun _ => none)).stage3
        = some (check_hf_token (fun _ => none)) ∧
    (main demoWorkspace (fun _ => none)).success = true :=
  (pipeline_stage3_advisory demoWorkspace (fun _ => none) (fun _ => none)).1 rfl rfl

/-- C10: a fault in the scratch-directory reset escapes `simulate_workflow`
uncaught (the reset runs before the exception handler is installed), while
an exception raised inside the protected staging block is caught, reported
with its message, and converted to a `False` return. -/
theorem scratch_reset_outside_handler (w : Workspace) (msg : String) :
    simulate_workflow_run (some msg) w = RunResult.raised msg ∧
    (∀ e, simulate_workflow w = Except.error e →
      simulate_workflow_run none w = RunResult.returned false (some e)) ∧
    (∀ s, simulate_workflow w = Except.ok s →
      simulate_workflow_run none w = RunResult.returned true none) := by
  refine ⟨rfl, fun e he => ?_, fun s hs => ?_⟩
  · unfold simulate_workflow_run
    rw [he]
  · unfold simulate_workflow_run
    rw [hs]

/-- Witness for C10: a reset fault escapes as an exception on a concrete
directory, and on an empty directory the in-block copy failure is caught
and reported. -/
theorem scratch_reset_outside_handler_witness :
    simulate_workflow_run (some "scratch reset failed") (Workspace.mk none [])
        = RunResult.raised "scratch reset failed" ∧
    simulate_workflow_run none (Workspace.mk none [])
        = RunResult.returned false (some "No such file or directory: ./openhands") :=
  ⟨(scratch_reset_outside_handler (Workspace.mk none []) "scratch reset failed").1,
   (scratch_reset_outside_handler (Workspace.mk none []) "scratch reset failed").2.1
     "No such file or directory: ./openhands" rfl⟩

end HFDeploy
